import Mathlib

/-!
Verification of the nearme_contract Solana program
(src/nearme_contract/programs/nearme_contract/src/lib.rs) against its
natural-language specification.

Shallow embedding notes.

The program is an Anchor program with two instructions,
`create_location_proof` and `close_location_proof`.  An Anchor
instruction runs in two phases: first the accounts phase generated from
the `#[derive(Accounts)]` struct (PDA seed derivation, the `init`
account creation, the `close` constraint), then the handler body.  Any
error in either phase aborts the whole transaction and the host rolls
back every effect, so persisted state changes are all-or-nothing.

We model:
 - byte strings as `List Nat` (`merchant_id.len()` on a Rust `String`
   is its byte length, so a byte-list model is exact);
 - the storage key of a PDA as the concatenation of its seed byte
   strings (Solana derives the address by hashing exactly this
   concatenation together with call-independent data, and the hash is
   collision-resistant, so key equality corresponds to concatenation
   equality).  Solana refuses to derive an address from any seed longer
   than `MAX_SEED_LEN` = 32 bytes: for an oversized `merchant_id` the
   accounts phase aborts with a seed-length error before computing any
   key, before `init`, and before the handler runs, so the handler's
   own length check is unreachable for such inputs;
 - the host ledger as an association list from keys to `LocationProof`
   records; Anchor `init` is create-if-absent on the derived key;
 - the handler bodies literally, with their `require!` chains;
 - an action trace recording, in execution order, key derivation,
   account initialization and the handler length check, to settle the
   ordering claims;
 - emitted events (`emit!`) as a list attached to each call result
   (`msg!` log lines are not events and are not modelled).
-/

namespace NearmeContract

/-- Byte strings; merchant identifiers and storage keys are byte strings. -/
abbrev Bytes := List Nat

/-- Caller identity as established by the host signer-verification layer. -/
abbrev Identity := Nat

/-- Namespace tag of the proof PDA: the bytes of the literal b"proof". -/
def proofTag : Bytes := [112, 114, 111, 111, 102]

/-- Maximum length for the merchant ID string, from the source constant
MAX_MERCHANT_ID_LEN = 32. -/
def MAX_MERCHANT_ID_LEN : Nat := 32

/-- Maximum byte length of a single PDA seed, enforced by the Solana
runtime: address derivation aborts for any longer seed, so no key is
ever produced from it. -/
def MAX_SEED_LEN : Nat := 32

/-- Storage key derived by CreateLocationProof:
seeds = [b"proof", merchant_id.as_bytes()], modelled as the seed
concatenation.  The runtime only derives a key when every seed is
within MAX_SEED_LEN, so this function is meaningful for merchant
identifiers of at most 32 bytes; the create pipeline below guards
every use of it with that seed-length check, exactly as the accounts
phase does. -/
def createKey (merchant_id : Bytes) : Bytes := proofTag ++ merchant_id

/-- Storage key derived by CloseLocationProof: seeds = [b"proof"]
(the merchant identifier is absent from the close seed list in the
source), modelled as the seed concatenation. -/
def closeKey : Bytes := proofTag

/-- Error codes of the program, from the ErrorCode enum in the source. -/
inductive ErrorCode
  | MerchantIdTooLong
  | InvalidLatitude
  | InvalidLongitude
  deriving DecidableEq, Repr

/-- Failure kinds of a full create call: the runtime's seed-length
abort when a seed exceeds MAX_SEED_LEN (raised during PDA derivation,
before any key exists), the account-already-in-use failure of Anchor
init (AlreadyExists in the spec vocabulary), or a handler validation
error. -/
inductive CreateErr
  | MaxSeedLengthExceeded
  | MerchantIdTooLong
  | InvalidLatitude
  | InvalidLongitude
  | AlreadyExists
  deriving DecidableEq, Repr

/-- Lift a handler ErrorCode into the create-call failure kind. -/
def CreateErr.ofCode : ErrorCode → CreateErr
  | ErrorCode.MerchantIdTooLong => CreateErr.MerchantIdTooLong
  | ErrorCode.InvalidLatitude => CreateErr.InvalidLatitude
  | ErrorCode.InvalidLongitude => CreateErr.InvalidLongitude

/-- Failure kinds of a full close call.  Account resolution fails when
no record lives at the derived key (NotFound in the spec vocabulary).
The source defines no Unauthorized path for close. -/
inductive CloseErr
  | NotFound
  deriving DecidableEq, Repr

/-- The persisted LocationProof account, from the source struct:
lat, lng (degrees times one million), verified_at (unix timestamp),
bump (PDA bump seed). -/
structure LocationProof where
  lat : Int
  lng : Int
  verified_at : Int
  bump : Nat
  deriving DecidableEq, Repr

/-- The LocationVerifiedEvent emitted by emit! on successful creation. -/
structure LocationVerifiedEvent where
  lat : Int
  lng : Int
  timestamp : Int
  deriving DecidableEq, Repr

/-- The host ledger restricted to this program: an association list
from storage keys to LocationProof records. -/
abbrev Store := List (Bytes × LocationProof)

/-- Read the record at a key (the first binding wins; creation never
inserts a duplicate key, so at most one binding per key ever exists). -/
def Store.get (s : Store) (k : Bytes) : Option LocationProof :=
  match s with
  | [] => none
  | (k2, v) :: rest => if k2 = k then some v else Store.get rest k

/-- Delete the record at a key, if any. -/
def Store.erase (s : Store) (k : Bytes) : Store :=
  match s with
  | [] => []
  | (k2, v) :: rest => if k2 = k then rest else (k2, v) :: Store.erase rest k

/-- Internal actions of a create call, recorded in execution order:
PDA key derivation from the merchant identifier, account
initialization at a key, and the handler merchant-id length check. -/
inductive Action
  | deriveKey (merchant_id : Bytes) (key : Bytes)
  | initAccount (key : Bytes)
  | lenCheck (merchant_id : Bytes)
  deriving DecidableEq, Repr

/-- Validation chain of the create_location_proof handler body, exactly
the three require! statements in source order: merchant_id length,
latitude bounds, longitude bounds.  Returns the first failing check's
error, or none when all pass. -/
def create_checks (lat lng : Int) (merchant_id : Bytes) : Option ErrorCode :=
  if merchant_id.length ≤ MAX_MERCHANT_ID_LEN then
    if -90000000 ≤ lat ∧ lat ≤ 90000000 then
      if -180000000 ≤ lng ∧ lng ≤ 180000000 then none
      else some ErrorCode.InvalidLongitude
    else some ErrorCode.InvalidLatitude
  else some ErrorCode.MerchantIdTooLong

instance {e a : Type} [DecidableEq e] [DecidableEq a] : DecidableEq (Except e a) := fun x y =>
  match x, y with
  | Except.ok v, Except.ok w =>
      if h : v = w then isTrue (by rw [h]) else isFalse (by simp [h])
  | Except.ok _, Except.error _ => isFalse (by simp)
  | Except.error _, Except.ok _ => isFalse (by simp)
  | Except.error v, Except.error w =>
      if h : v = w then isTrue (by rw [h]) else isFalse (by simp [h])

/-- Result of a full create call: outcome, persisted store after
rollback or commit, emitted events, and the internal action trace. -/
structure CreateResult where
  result : Except CreateErr Unit
  store : Store
  events : List LocationVerifiedEvent
  actions : List Action
  deriving DecidableEq, Repr

/-- Result of a full close call. -/
structure CloseResult where
  result : Except CloseErr Unit
  store : Store
  events : List LocationVerifiedEvent
  deriving DecidableEq, Repr

/-- Full create_location_proof call.  The accounts phase first runs PDA
derivation: if the merchant_id seed exceeds MAX_SEED_LEN the runtime
aborts the call with a seed-length error before any key is computed,
before init, and before the handler — the action trace is empty in that
case.  Otherwise it derives the key from [b"proof", merchant_id] and
performs init (create-if-absent); only then does the handler body run
its require! chain, read the clock (`now`), write the record fields and
emit the event.  On any failure the host rolls the store back, so the
returned store is the original one; the action trace records what
executed.  The PDA bump is host-derived and claim-irrelevant; it is
modelled as the constant 255. -/
def create_location_proof (s : Store) (lat lng : Int) (merchant_id : Bytes)
    (now : Int) : CreateResult :=
  if merchant_id.length ≤ MAX_SEED_LEN then
  match s.get (createKey merchant_id) with
  | some _ =>
      { result := Except.error CreateErr.AlreadyExists
        store := s
        events := []
        actions := [Action.deriveKey merchant_id (createKey merchant_id),
                    Action.initAccount (createKey merchant_id)] }
  | none =>
      match create_checks lat lng merchant_id with
      | some e =>
          { result := Except.error (CreateErr.ofCode e)
            store := s
            events := []
            actions := [Action.deriveKey merchant_id (createKey merchant_id),
                        Action.initAccount (createKey merchant_id),
                        Action.lenCheck merchant_id] }
      | none =>
          { result := Except.ok ()
            store := (createKey merchant_id,
                      { lat := lat, lng := lng, verified_at := now, bump := 255 }) :: s
            events := [{ lat := lat, lng := lng, timestamp := now }]
            actions := [Action.deriveKey merchant_id (createKey merchant_id),
                        Action.initAccount (createKey merchant_id),
                        Action.lenCheck merchant_id] }
  else
    { result := Except.error CreateErr.MaxSeedLengthExceeded
      store := s
      events := []
      actions := [] }

/-- Full close_location_proof call.  The accounts phase resolves the
account at the key derived from seeds [b"proof"]; a missing record
fails resolution (NotFound), otherwise the close constraint removes
the record and transfers its lamports to the signer passed as
authority.  No constraint or handler code compares the authority
identity against anything recorded at creation, so the outcome does
not depend on it; the handler body only logs. -/
def close_location_proof (s : Store) (authority : Identity) : CloseResult :=
  match s.get closeKey with
  | none => { result := Except.error CloseErr.NotFound, store := s, events := [] }
  | some _ => { result := Except.ok (), store := s.erase closeKey, events := [] }

/-- One externally invokable operation. -/
inductive Op
  | create (lat lng : Int) (merchant_id : Bytes) (now : Int) (caller : Identity)
  | close (caller : Identity)

/-- Persisted store after one operation. -/
def applyOp (s : Store) : Op → Store
  | Op.create lat lng merchant_id now _ => (create_location_proof s lat lng merchant_id now).store
  | Op.close caller => (close_location_proof s caller).store

/-- Persisted store after a sequence of operations from the empty ledger. -/
def run (ops : List Op) : Store := ops.foldl applyOp []

/-- Domain bounds of a live record, from the data model. -/
def InBounds (r : LocationProof) : Prop :=
  -90000000 ≤ r.lat ∧ r.lat ≤ 90000000 ∧ -180000000 ≤ r.lng ∧ r.lng ≤ 180000000

instance (r : LocationProof) : Decidable (InBounds r) := by
  unfold InBounds; infer_instance

/-- Thirty-three bytes of the letter a: a one-over-limit merchant_id. -/
def mid33 : Bytes := List.replicate 33 97

/-! ### Helper lemmas about the store and the validator -/

theorem Store.get_some_mem {s : Store} {k : Bytes} {r : LocationProof}
    (h : s.get k = some r) : (k, r) ∈ s := by
  induction s with
  | nil => simp [Store.get] at h
  | cons p rest ih =>
    obtain ⟨k2, v⟩ := p
    simp only [Store.get] at h
    by_cases hk : k2 = k
    · subst hk
      rw [if_pos rfl] at h
      cases h
      exact List.mem_cons_self _ _
    · rw [if_neg hk] at h
      exact List.mem_cons_of_mem _ (ih h)

theorem Store.mem_erase {s : Store} {k : Bytes} {p : Bytes × LocationProof}
    (h : p ∈ Store.erase s k) : p ∈ s := by
  induction s with
  | nil => simpa [Store.erase] using h
  | cons q rest ih =>
    obtain ⟨k2, v⟩ := q
    simp only [Store.erase] at h
    by_cases hk : k2 = k
    · rw [if_pos hk] at h
      exact List.mem_cons_of_mem _ h
    · rw [if_neg hk] at h
      rcases List.mem_cons.mp h with h1 | h2
      · exact h1 ▸ List.mem_cons_self _ _
      · exact List.mem_cons_of_mem _ (ih h2)

theorem Store.get_cons_self (s : Store) (k : Bytes) (v : LocationProof) :
    Store.get ((k, v) :: s) k = some v := by
  simp [Store.get]

theorem create_checks_none_of {lat lng : Int} {mid : Bytes}
    (h1 : mid.length ≤ MAX_MERCHANT_ID_LEN)
    (h2 : -90000000 ≤ lat ∧ lat ≤ 90000000)
    (h3 : -180000000 ≤ lng ∧ lng ≤ 180000000) :
    create_checks lat lng mid = none := by
  unfold create_checks
  rw [if_pos h1, if_pos h2, if_pos h3]

theorem bounds_of_create_checks_none {lat lng : Int} {mid : Bytes}
    (h : create_checks lat lng mid = none) :
    (-90000000 ≤ lat ∧ lat ≤ 90000000) ∧ (-180000000 ≤ lng ∧ lng ≤ 180000000) := by
  unfold create_checks at h
  split_ifs at h with h1 h2 h3
  exact ⟨h2, h3⟩

theorem create_checks_too_long {lat lng : Int} {mid : Bytes}
    (h : MAX_MERCHANT_ID_LEN < mid.length) :
    create_checks lat lng mid = some ErrorCode.MerchantIdTooLong := by
  unfold create_checks
  rw [if_neg (by omega)]

theorem create_checks_invalid_lat {lat lng : Int} {mid : Bytes}
    (h1 : mid.length ≤ MAX_MERCHANT_ID_LEN)
    (h2 : ¬ (-90000000 ≤ lat ∧ lat ≤ 90000000)) :
    create_checks lat lng mid = some ErrorCode.InvalidLatitude := by
  unfold create_checks
  rw [if_pos h1, if_neg h2]

theorem create_checks_invalid_lng {lat lng : Int} {mid : Bytes}
    (h1 : mid.length ≤ MAX_MERCHANT_ID_LEN)
    (h2 : -90000000 ≤ lat ∧ lat ≤ 90000000)
    (h3 : ¬ (-180000000 ≤ lng ∧ lng ≤ 180000000)) :
    create_checks lat lng mid = some ErrorCode.InvalidLongitude := by
  unfold create_checks
  rw [if_pos h1, if_pos h2, if_neg h3]

/-! ### Unfolding lemmas for the full create call -/

theorem create_eq_of_exists {s : Store} {lat lng : Int} {mid : Bytes} {now : Int}
    {r : LocationProof} (hseed : mid.length ≤ MAX_SEED_LEN)
    (hget : s.get (createKey mid) = some r) :
    create_location_proof s lat lng mid now =
      { result := Except.error CreateErr.AlreadyExists
        store := s
        events := []
        actions := [Action.deriveKey mid (createKey mid),
                    Action.initAccount (createKey mid)] } := by
  unfold create_location_proof
  rw [if_pos hseed, hget]

theorem create_eq_of_check_err {s : Store} {lat lng : Int} {mid : Bytes} {now : Int}
    {e : ErrorCode} (hseed : mid.length ≤ MAX_SEED_LEN)
    (hget : s.get (createKey mid) = none)
    (hchk : create_checks lat lng mid = some e) :
    create_location_proof s lat lng mid now =
      { result := Except.error (CreateErr.ofCode e)
        store := s
        events := []
        actions := [Action.deriveKey mid (createKey mid),
                    Action.initAccount (createKey mid),
                    Action.lenCheck mid] } := by
  unfold create_location_proof
  rw [if_pos hseed, hget, hchk]

theorem create_eq_of_fresh_valid {s : Store} {lat lng : Int} {mid : Bytes} {now : Int}
    (hseed : mid.length ≤ MAX_SEED_LEN)
    (hget : s.get (createKey mid) = none)
    (hchk : create_checks lat lng mid = none) :
    create_location_proof s lat lng mid now =
      { result := Except.ok ()
        store := (createKey mid,
                  { lat := lat, lng := lng, verified_at := now, bump := 255 }) :: s
        events := [{ lat := lat, lng := lng, timestamp := now }]
        actions := [Action.deriveKey mid (createKey mid),
                    Action.initAccount (createKey mid),
                    Action.lenCheck mid] } := by
  unfold create_location_proof
  rw [if_pos hseed, hget, hchk]

theorem create_eq_of_seed_too_long {s : Store} {lat lng : Int} {mid : Bytes} {now : Int}
    (hseed : ¬ mid.length ≤ MAX_SEED_LEN) :
    create_location_proof s lat lng mid now =
      { result := Except.error CreateErr.MaxSeedLengthExceeded
        store := s
        events := []
        actions := [] } := by
  unfold create_location_proof
  rw [if_neg hseed]

theorem create_store_cases (s : Store) (lat lng : Int) (mid : Bytes) (now : Int) :
    (create_location_proof s lat lng mid now).store = s ∨
    ((create_location_proof s lat lng mid now).store
        = (createKey mid,
           { lat := lat, lng := lng, verified_at := now, bump := 255 }) :: s ∧
      create_checks lat lng mid = none) := by
  by_cases hseed : mid.length ≤ MAX_SEED_LEN
  · cases hget : Store.get s (createKey mid) with
    | some r => rw [create_eq_of_exists hseed hget]; left; rfl
    | none =>
      cases hchk : create_checks lat lng mid with
      | some e => rw [create_eq_of_check_err hseed hget hchk]; left; rfl
      | none => rw [create_eq_of_fresh_valid hseed hget hchk]; right; exact ⟨rfl, rfl⟩
  · rw [create_eq_of_seed_too_long hseed]; left; rfl

theorem create_rollback (s : Store) (lat lng : Int) (mid : Bytes) (now : Int)
    (h : (create_location_proof s lat lng mid now).result ≠ Except.ok ()) :
    (create_location_proof s lat lng mid now).store = s := by
  by_cases hseed : mid.length ≤ MAX_SEED_LEN
  · cases hget : Store.get s (createKey mid) with
    | some r => rw [create_eq_of_exists hseed hget]
    | none =>
      cases hchk : create_checks lat lng mid with
      | some e => rw [create_eq_of_check_err hseed hget hchk]
      | none =>
        exfalso
        apply h
        rw [create_eq_of_fresh_valid hseed hget hchk]
  · rw [create_eq_of_seed_too_long hseed]

theorem close_store_cases (s : Store) (c : Identity) :
    (close_location_proof s c).store = s ∨
    (close_location_proof s c).store = s.erase closeKey := by
  unfold close_location_proof
  cases Store.get s closeKey with
  | none => left; rfl
  | some r => right; rfl

/-! ### The bounds invariant over all reachable states -/

theorem invS_applyOp {s : Store} (hInv : ∀ p ∈ s, InBounds p.2) (op : Op) :
    ∀ p ∈ applyOp s op, InBounds p.2 := by
  intro p hp
  cases op with
  | create lat lng mid now c =>
    simp only [applyOp] at hp
    rcases create_store_cases s lat lng mid now with h | ⟨h, hchk⟩
    · rw [h] at hp; exact hInv p hp
    · rw [h] at hp
      rcases List.mem_cons.mp hp with rfl | hmem
      · obtain ⟨hlat, hlng⟩ := bounds_of_create_checks_none hchk
        exact ⟨hlat.1, hlat.2, hlng.1, hlng.2⟩
      · exact hInv p hmem
  | close c =>
    simp only [applyOp] at hp
    rcases close_store_cases s c with h | h
    · rw [h] at hp; exact hInv p hp
    · rw [h] at hp; exact hInv p (Store.mem_erase hp)

theorem invS_foldl (ops : List Op) :
    ∀ s : Store, (∀ p ∈ s, InBounds p.2) →
      ∀ p ∈ ops.foldl applyOp s, InBounds p.2 := by
  induction ops with
  | nil => intro s h; simp only [List.foldl_nil]; exact h
  | cons op rest ih =>
    intro s h
    simp only [List.foldl_cons]
    exact ih _ (invS_applyOp h op)

/-! ### Claim theorems -/

/-- C1: claimed: for every merchant_id, Close derives and deletes the same
per-merchant key that Create derives (tag "proof" plus the merchant_id
bytes).  The code violates this: CloseLocationProof's seed list is
[b"proof"] alone, so its key omits the merchant_id bytes.  Concretely,
for merchant_id "m" the two keys differ, and after a Create for "m" a
Close reports NotFound and leaves the created record in place; the close
key coincides with a create key only for the empty merchant_id. -/
theorem c1_close_key_differs_from_create_key :
    createKey [109] ≠ closeKey ∧
    createKey [] = closeKey ∧
    (close_location_proof (create_location_proof [] 1 2 [109] 3).store 0).result
      = Except.error CloseErr.NotFound ∧
    Store.get (close_location_proof (create_location_proof [] 1 2 [109] 3).store 0).store
        (createKey [109])
      = some { lat := 1, lng := 2, verified_at := 3, bump := 255 } := by
  decide

/-- C2: claimed: a Close whose caller is not the recorded owner fails with
Unauthorized and leaves the record intact.  The code records no owner in
LocationProof and CloseLocationProof imposes no identity constraint on
the authority signer, so a Close that resolves the record succeeds for
EVERY caller identity and deletes it: after a Create (merchant_id empty,
so that the close key resolves the record at all), every caller closes
the record successfully and the record is gone. -/
theorem c2_close_succeeds_for_any_caller :
    ∀ caller : Identity,
      (close_location_proof (create_location_proof [] 5 6 [] 7).store caller).result
        = Except.ok () ∧
      Store.get (close_location_proof (create_location_proof [] 5 6 [] 7).store caller).store
          closeKey
        = none := by
  intro caller
  exact ⟨rfl, rfl⟩

/-- C3: with in-range coordinates and a merchant_id of at most 32 bytes, a
first Create for that merchant_id succeeds and stores lat, lng,
verified_at; a second Create for the same merchant_id with any valid
arguments fails with AlreadyExists and leaves the store, hence the
originally stored fields, unchanged. -/
theorem c3_first_create_succeeds_second_already_exists
    (s : Store) (lat lng lat2 lng2 : Int) (mid : Bytes) (now now2 : Int)
    (hfresh : Store.get s (createKey mid) = none)
    (hlen : mid.length ≤ 32)
    (hlat : -90000000 ≤ lat ∧ lat ≤ 90000000)
    (hlng : -180000000 ≤ lng ∧ lng ≤ 180000000)
    (hlat2 : -90000000 ≤ lat2 ∧ lat2 ≤ 90000000)
    (hlng2 : -180000000 ≤ lng2 ∧ lng2 ≤ 180000000) :
    (create_location_proof s lat lng mid now).result = Except.ok () ∧
    Store.get (create_location_proof s lat lng mid now).store (createKey mid)
      = some { lat := lat, lng := lng, verified_at := now, bump := 255 } ∧
    (create_location_proof (create_location_proof s lat lng mid now).store
        lat2 lng2 mid now2).result = Except.error CreateErr.AlreadyExists ∧
    (create_location_proof (create_location_proof s lat lng mid now).store
        lat2 lng2 mid now2).store = (create_location_proof s lat lng mid now).store := by
  have hlen' : mid.length ≤ MAX_MERCHANT_ID_LEN := hlen
  have hseed : mid.length ≤ MAX_SEED_LEN := hlen
  have hchk := create_checks_none_of hlen' hlat hlng
  rw [create_eq_of_fresh_valid hseed hfresh hchk]
  dsimp only
  refine ⟨rfl, Store.get_cons_self _ _ _, ?_, ?_⟩
  · rw [create_eq_of_exists hseed (Store.get_cons_self _ _ _)]
  · rw [create_eq_of_exists hseed (Store.get_cons_self _ _ _)]

theorem c3_witness :
    Store.get [] (createKey [109]) = none ∧
    ([109] : Bytes).length ≤ 32 ∧
    ((create_location_proof [] 1 2 [109] 3).result = Except.ok () ∧
     Store.get (create_location_proof [] 1 2 [109] 3).store (createKey [109])
       = some { lat := 1, lng := 2, verified_at := 3, bump := 255 } ∧
     (create_location_proof (create_location_proof [] 1 2 [109] 3).store
         4 5 [109] 6).result = Except.error CreateErr.AlreadyExists ∧
     (create_location_proof (create_location_proof [] 1 2 [109] 3).store
         4 5 [109] 6).store = (create_location_proof [] 1 2 [109] 3).store) :=
  ⟨by decide, by decide,
   c3_first_create_succeeds_second_already_exists [] 1 2 4 5 [109] 3 6
     (by decide) (by decide) (by decide) (by decide) (by decide) (by decide)⟩

/-- C4: in every state reachable by any sequence of Create and Close
operations from the empty ledger, every live record satisfies the
latitude and longitude domain bounds. -/
theorem c4_reachable_records_in_bounds (ops : List Op) (k : Bytes) (r : LocationProof)
    (h : Store.get (run ops) k = some r) : InBounds r :=
  invS_foldl ops [] (by simp) (k, r) (Store.get_some_mem h)

theorem c4_witness :
    Store.get (run [Op.create 1 2 [109] 3 0]) (createKey [109])
      = some { lat := 1, lng := 2, verified_at := 3, bump := 255 } ∧
    InBounds { lat := 1, lng := 2, verified_at := 3, bump := 255 } :=
  ⟨by decide,
   c4_reachable_records_in_bounds [Op.create 1 2 [109] 3 0] (createKey [109])
     { lat := 1, lng := 2, verified_at := 3, bump := 255 } (by decide)⟩

/-- C5: for a merchant_id of at most 32 bytes, the validator reports
InvalidLatitude exactly when lat is out of bounds, then InvalidLongitude
exactly when lng is out of bounds (bounds inclusive); at the call level,
on a fresh key, lat = 90000001 fails with InvalidLatitude, lng =
-180000001 fails with InvalidLongitude, and the boundary values are
accepted. -/
theorem c5_validator_bounds_and_order
    (s : Store) (mid : Bytes) (lat lng now : Int)
    (hlen : mid.length ≤ 32)
    (hfresh : Store.get s (createKey mid) = none) :
    (create_checks lat lng mid =
       if h : -90000000 ≤ lat ∧ lat ≤ 90000000 then
         if h2 : -180000000 ≤ lng ∧ lng ≤ 180000000 then none
         else some ErrorCode.InvalidLongitude
       else some ErrorCode.InvalidLatitude) ∧
    (create_location_proof s 90000001 0 mid now).result
      = Except.error CreateErr.InvalidLatitude ∧
    (create_location_proof s 0 (-180000001) mid now).result
      = Except.error CreateErr.InvalidLongitude ∧
    (create_location_proof s 90000000 180000000 mid now).result = Except.ok () ∧
    (create_location_proof s (-90000000) (-180000000) mid now).result = Except.ok () := by
  have hlen' : mid.length ≤ MAX_MERCHANT_ID_LEN := hlen
  have hseed : mid.length ≤ MAX_SEED_LEN := hlen
  refine ⟨?_, ?_, ?_, ?_, ?_⟩
  · by_cases hA : -90000000 ≤ lat ∧ lat ≤ 90000000
    · by_cases hB : -180000000 ≤ lng ∧ lng ≤ 180000000
      · rw [create_checks_none_of hlen' hA hB, dif_pos hA, dif_pos hB]
      · rw [create_checks_invalid_lng hlen' hA hB, dif_pos hA, dif_neg hB]
    · rw [create_checks_invalid_lat hlen' hA, dif_neg hA]
  · rw [create_eq_of_check_err hseed hfresh (create_checks_invalid_lat hlen' (by decide))]; rfl
  · rw [create_eq_of_check_err hseed hfresh
      (create_checks_invalid_lng hlen' (by decide) (by decide))]; rfl
  · rw [create_eq_of_fresh_valid hseed hfresh
      (create_checks_none_of hlen' (by decide) (by decide))]
  · rw [create_eq_of_fresh_valid hseed hfresh
      (create_checks_none_of hlen' (by decide) (by decide))]

theorem c5_witness :
    ([109] : Bytes).length ≤ 32 ∧
    Store.get [] (createKey [109]) = none ∧
    ((create_checks 0 0 [109] =
        if h : -90000000 ≤ (0 : Int) ∧ (0 : Int) ≤ 90000000 then
          if h2 : -180000000 ≤ (0 : Int) ∧ (0 : Int) ≤ 180000000 then none
          else some ErrorCode.InvalidLongitude
        else some ErrorCode.InvalidLatitude) ∧
     (create_location_proof [] 90000001 0 [109] 0).result
       = Except.error CreateErr.InvalidLatitude ∧
     (create_location_proof [] 0 (-180000001) [109] 0).result
       = Except.error CreateErr.InvalidLongitude ∧
     (create_location_proof [] 90000000 180000000 [109] 0).result = Except.ok () ∧
     (create_location_proof [] (-90000000) (-180000000) [109] 0).result = Except.ok ()) :=
  ⟨by decide, by decide,
   c5_validator_bounds_and_order [] [109] 0 0 0 (by decide) (by decide)⟩

/-- C6 counterexample: the claim says a merchant_id longer than 32 bytes
makes the Create call fail with MerchantIdTooLong.  On the program, a
33-byte merchant_id already aborts PDA derivation in the accounts phase
(every seed is limited to MAX_SEED_LEN = 32 bytes by the runtime), so
the call fails with the seed-length error and never reaches the
handler's MerchantIdTooLong check. -/
theorem c6_counterexample :
    (create_location_proof [] 0 0 mid33 0).result
      = Except.error CreateErr.MaxSeedLengthExceeded ∧
    (create_location_proof [] 0 0 mid33 0).result
      ≠ Except.error CreateErr.MerchantIdTooLong := by
  decide

/-- C6 amended: a merchant_id longer than 32 bytes makes every Create
call fail — with the accounts-phase seed-length abort, raised before
any key is derived, so the handler's MerchantIdTooLong error is
unreachable for such ids, even though the handler length condition
(create_checks) would by itself also reject them; a merchant_id of
exactly 32 bytes passes both the seed-length limit and the handler
length check; both limits count the bytes of the identifier. -/
theorem c6_oversized_id_fails_before_handler
    (s : Store) (mid mid32 : Bytes) (lat lng now : Int)
    (hlong : 32 < mid.length)
    (h32 : mid32.length = 32) :
    (create_location_proof s lat lng mid now).result
      = Except.error CreateErr.MaxSeedLengthExceeded ∧
    (create_location_proof s lat lng mid now).actions = [] ∧
    create_checks lat lng mid = some ErrorCode.MerchantIdTooLong ∧
    mid32.length ≤ MAX_SEED_LEN ∧
    create_checks lat lng mid32 ≠ some ErrorCode.MerchantIdTooLong := by
  have hlong' : MAX_MERCHANT_ID_LEN < mid.length := hlong
  have hseed : ¬ mid.length ≤ MAX_SEED_LEN := by
    unfold MAX_SEED_LEN
    omega
  refine ⟨?_, ?_, create_checks_too_long hlong', ?_, ?_⟩
  · rw [create_eq_of_seed_too_long hseed]
  · rw [create_eq_of_seed_too_long hseed]
  · unfold MAX_SEED_LEN
    omega
  · unfold create_checks
    rw [if_pos (show mid32.length ≤ MAX_MERCHANT_ID_LEN by unfold MAX_MERCHANT_ID_LEN; omega)]
    split_ifs <;> simp

theorem c6_witness :
    32 < mid33.length ∧
    (List.replicate 32 97 : Bytes).length = 32 ∧
    ((create_location_proof [] 0 0 mid33 0).result
       = Except.error CreateErr.MaxSeedLengthExceeded ∧
     (create_location_proof [] 0 0 mid33 0).actions = [] ∧
     create_checks 0 0 mid33 = some ErrorCode.MerchantIdTooLong ∧
     (List.replicate 32 97 : Bytes).length ≤ MAX_SEED_LEN ∧
     create_checks 0 0 (List.replicate 32 97) ≠ some ErrorCode.MerchantIdTooLong) :=
  ⟨by decide, by decide,
   c6_oversized_id_fails_before_handler [] mid33 (List.replicate 32 97) 0 0 0
     (by decide) (by decide)⟩

/-- C7: with a valid merchant_id and both coordinates out of bounds, the
validator (and a fresh create call) reports InvalidLatitude: the
latitude check precedes the longitude check. -/
theorem c7_latitude_error_precedence
    (s : Store) (mid : Bytes) (lat lng now : Int)
    (hlen : mid.length ≤ 32)
    (hlat : ¬ (-90000000 ≤ lat ∧ lat ≤ 90000000))
    (hlng : ¬ (-180000000 ≤ lng ∧ lng ≤ 180000000))
    (hfresh : Store.get s (createKey mid) = none) :
    create_checks lat lng mid = some ErrorCode.InvalidLatitude ∧
    (create_location_proof s lat lng mid now).result
      = Except.error CreateErr.InvalidLatitude := by
  have hlen' : mid.length ≤ MAX_MERCHANT_ID_LEN := hlen
  have hseed : mid.length ≤ MAX_SEED_LEN := hlen
  refine ⟨create_checks_invalid_lat hlen' hlat, ?_⟩
  rw [create_eq_of_check_err hseed hfresh (create_checks_invalid_lat hlen' hlat)]
  rfl

theorem c7_witness :
    ([109] : Bytes).length ≤ 32 ∧
    ¬ (-90000000 ≤ (90000001 : Int) ∧ (90000001 : Int) ≤ 90000000) ∧
    ¬ (-180000000 ≤ (-180000001 : Int) ∧ (-180000001 : Int) ≤ 180000000) ∧
    Store.get [] (createKey [109]) = none ∧
    (create_checks 90000001 (-180000001) [109] = some ErrorCode.InvalidLatitude ∧
     (create_location_proof [] 90000001 (-180000001) [109] 0).result
       = Except.error CreateErr.InvalidLatitude) :=
  ⟨by decide, by decide, by decide, by decide,
   c7_latitude_error_precedence [] [109] 90000001 (-180000001) 0
     (by decide) (by decide) (by decide) (by decide)⟩

/-- C8 counterexample: the claim says that for a merchant_id exceeding
32 bytes the Create call fails with MerchantIdTooLong.  On the program,
the runtime aborts PDA derivation for the 33-byte identifier mid33 with
its seed-length error during the accounts phase, so the call does not
fail with MerchantIdTooLong — the handler and its length check never
run and the action trace is empty. -/
theorem c8_counterexample :
    (create_location_proof [] 1 1 mid33 1).result
      ≠ Except.error CreateErr.MerchantIdTooLong ∧
    (create_location_proof [] 1 1 mid33 1).result
      = Except.error CreateErr.MaxSeedLengthExceeded ∧
    (create_location_proof [] 1 1 mid33 1).actions = [] := by
  decide

/-- C8 amended: in every execution of Create, the seed-length limit is
enforced before key derivation: for a merchant_id exceeding 32 bytes
the call aborts with the accounts-phase seed-length error, no storage
key is ever computed from the oversized identifier, account
initialization is never attempted, the handler's MerchantIdTooLong
check never runs, and no store mutation or event persists; moreover no
failing Create call of any kind persists a store change
(all-or-nothing). -/
theorem c8_seed_check_precedes_derivation
    (s : Store) (lat lng : Int) (mid : Bytes) (now : Int)
    (hlong : 32 < mid.length) :
    (create_location_proof s lat lng mid now).result
      = Except.error CreateErr.MaxSeedLengthExceeded ∧
    (create_location_proof s lat lng mid now).actions = [] ∧
    (create_location_proof s lat lng mid now).store = s ∧
    (create_location_proof s lat lng mid now).events = [] ∧
    ∀ lat2 lng2 : Int, ∀ mid2 : Bytes, ∀ now2 : Int,
      (create_location_proof s lat2 lng2 mid2 now2).result ≠ Except.ok () →
      (create_location_proof s lat2 lng2 mid2 now2).store = s := by
  have hseed : ¬ mid.length ≤ MAX_SEED_LEN := by
    unfold MAX_SEED_LEN
    omega
  rw [create_eq_of_seed_too_long hseed]
  exact ⟨rfl, rfl, rfl, rfl,
    fun lat2 lng2 mid2 now2 h => create_rollback s lat2 lng2 mid2 now2 h⟩

theorem c8_witness :
    32 < mid33.length ∧
    ((create_location_proof [] 1 2 mid33 3).result
       = Except.error CreateErr.MaxSeedLengthExceeded ∧
     (create_location_proof [] 1 2 mid33 3).actions = [] ∧
     (create_location_proof [] 1 2 mid33 3).store = [] ∧
     (create_location_proof [] 1 2 mid33 3).events = [] ∧
     (create_location_proof [] 90000001 0 [109] 0).store = []) :=
  ⟨by decide,
   (c8_seed_check_precedes_derivation [] 1 2 mid33 3 (by decide)).1,
   (c8_seed_check_precedes_derivation [] 1 2 mid33 3 (by decide)).2.1,
   (c8_seed_check_precedes_derivation [] 1 2 mid33 3 (by decide)).2.2.1,
   (c8_seed_check_precedes_derivation [] 1 2 mid33 3 (by decide)).2.2.2.1,
   (c8_seed_check_precedes_derivation [] 1 2 mid33 3 (by decide)).2.2.2.2
     90000001 0 [109] 0 (by decide)⟩

/-- C9: an event is emitted exactly on the successful Create path, and
the emitted lat, lng and timestamp equal the lat, lng and verified_at
persisted in the new record (both sides read the same clock value
once); failing Create calls and Close calls emit nothing. -/
theorem c9_event_iff_create_success
    (s : Store) (lat lng : Int) (mid : Bytes) (now : Int) (caller : Identity) :
    ((create_location_proof s lat lng mid now).result = Except.ok () →
       (create_location_proof s lat lng mid now).events
         = [{ lat := lat, lng := lng, timestamp := now }] ∧
       Store.get (create_location_proof s lat lng mid now).store (createKey mid)
         = some { lat := lat, lng := lng, verified_at := now, bump := 255 }) ∧
    ((create_location_proof s lat lng mid now).result ≠ Except.ok () →
       (create_location_proof s lat lng mid now).events = []) ∧
    (close_location_proof s caller).events = [] := by
  have hclose : (close_location_proof s caller).events = [] := by
    unfold close_location_proof
    cases Store.get s closeKey with
    | none => rfl
    | some r => rfl
  by_cases hseed : mid.length ≤ MAX_SEED_LEN
  · cases hget : Store.get s (createKey mid) with
    | some r =>
      rw [create_eq_of_exists hseed hget]
      refine ⟨?_, fun _ => rfl, hclose⟩
      intro h
      exact absurd h (by simp)
    | none =>
      cases hchk : create_checks lat lng mid with
      | some e =>
        rw [create_eq_of_check_err hseed hget hchk]
        refine ⟨?_, fun _ => rfl, hclose⟩
        intro h
        exact absurd h (by simp)
      | none =>
        rw [create_eq_of_fresh_valid hseed hget hchk]
        refine ⟨?_, ?_, hclose⟩
        · intro _
          exact ⟨rfl, Store.get_cons_self _ _ _⟩
        · intro h
          exact absurd rfl h
  · rw [create_eq_of_seed_too_long hseed]
    refine ⟨?_, fun _ => rfl, hclose⟩
    intro h
    exact absurd h (by simp)

theorem c9_witness :
    ((create_location_proof [] 1 2 [109] 3).events
       = [{ lat := 1, lng := 2, timestamp := 3 }] ∧
     Store.get (create_location_proof [] 1 2 [109] 3).store (createKey [109])
       = some { lat := 1, lng := 2, verified_at := 3, bump := 255 }) ∧
    (create_location_proof [] 90000001 0 [109] 3).events = [] ∧
    (close_location_proof [] 0).events = [] :=
  ⟨(c9_event_iff_create_success [] 1 2 [109] 3 0).1 (by decide),
   (c9_event_iff_create_success [] 90000001 0 [109] 3 0).2.1 (by decide),
   (c9_event_iff_create_success [] 1 2 [109] 3 0).2.2⟩

/-- C10: when the merchant_id exceeds 32 bytes and both coordinates are
also out of range, the handler validation reports MerchantIdTooLong:
the length check precedes both coordinate checks in the require! chain. -/
theorem c10_length_error_precedence
    (mid : Bytes) (lat lng : Int)
    (hlong : 32 < mid.length)
    (hlat : ¬ (-90000000 ≤ lat ∧ lat ≤ 90000000))
    (hlng : ¬ (-180000000 ≤ lng ∧ lng ≤ 180000000)) :
    create_checks lat lng mid = some ErrorCode.MerchantIdTooLong :=
  create_checks_too_long hlong

theorem c10_witness :
    32 < mid33.length ∧
    ¬ (-90000000 ≤ (90000001 : Int) ∧ (90000001 : Int) ≤ 90000000) ∧
    ¬ (-180000000 ≤ (-180000001 : Int) ∧ (-180000001 : Int) ≤ 180000000) ∧
    create_checks 90000001 (-180000001) mid33 = some ErrorCode.MerchantIdTooLong :=
  ⟨by decide, by decide, by decide,
   c10_length_error_precedence mid33 90000001 (-180000001)
     (by decide) (by decide) (by decide)⟩

end NearmeContract
